import Mathlib

/-!
Shallow embedding of the imagegenieai client core: the artifact conversion
helper, the credit-ledger client, the edit-history engine of the main App
component, the AI gateway response classifier, and the gallery upscale flow.
Definitions are translated from the TypeScript source files
(src/unnamed/part_001 = App.tsx, src/services/userService.ts,
src/services/geminiService.ts, src/components/ImageGenerator.tsx).
Remote I/O (Firestore writes, the Gemini call, the Blob-store upload) is
modelled by explicit outcome parameters: a write that the scenario assumes
to succeed is applied to the local state, a remote call outcome is passed
in as an `Except` value.
-/

/-- CreditTransaction from App.tsx: reason, signed amount, ISO date string. -/
structure CreditTransaction where
  reason : String
  amount : Int
  date : String
deriving DecidableEq

/-- User profile from App.tsx / userService.ts. -/
structure User where
  uid : String
  name : String
  email : String
  credits : Int
  creditHistory : List CreditTransaction
deriving DecidableEq

/-- The editor tab union type from App.tsx. -/
inductive Tab where
  | promptEdit
  | localEdit
  | filters
  | crop
deriving DecidableEq

/-- The AppMode union type from App.tsx. -/
inductive AppMode where
  | start
  | editor
  | generator
  | account
  | pricing
  | gallery
deriving DecidableEq

/-- A pixel coordinate pair, the hotspot of a localized edit. -/
structure Hotspot where
  x : Int
  y : Int
deriving DecidableEq

/-- A crop rectangle (react-image-crop Crop / PixelCrop, geometry only). -/
structure CropRect where
  x : Int
  y : Int
  width : Int
  height : Int
deriving DecidableEq

/-- GeneratedImage from components/GalleryScreen.tsx. -/
structure GeneratedImage where
  id : String
  url : String
  prompt : String
  isUpscaled : Bool
  createdAt : String
deriving DecidableEq

/-- The File object produced by dataURLtoFile: name, MIME type, byte content.
    The bytes are the char codes of the atob result, in order (the source
    fills the Uint8Array by a descending loop, which preserves order). -/
structure ImageFile where
  name : String
  mime : String
  bytes : List Nat
deriving DecidableEq

/-- Errors surfaced through setError in the source, modelled as a closed
    taxonomy.  The source formats these as message strings carrying the same
    data (e.g. "You need N credits for this action, but you only have M."). -/
inductive AppError where
  | insufficientCredits (required available : Int)
  | noImageLoaded
  | editFailed (reason detail : String)
  | upscaleFailed (detail : String)
  | promptMissing
  | hotspotMissing
deriving DecidableEq

/-- JS String.prototype.split(",") over the character list: every comma is a
    separator, empty segments are kept, the empty string yields [[]]. -/
def splitComma : List Char → List (List Char)
  | [] => [[]]
  | c :: rest =>
    let r := splitComma rest
    if c = ',' then [] :: r
    else
      match r with
      | [] => [[c]]
      | h :: t => (c :: h) :: t

/-- Whitespace test used by JS String.prototype.trim (the characters that
    occur in this codebase's prompts). -/
def isJsSpace (c : Char) : Bool :=
  c = ' ' || c = '\t' || c = '\n' || c = '\r'

/-- JS String.prototype.trim, structurally over the character list. -/
def jsTrim (s : String) : String :=
  String.mk (((s.toList.dropWhile isJsSpace).reverse.dropWhile isJsSpace).reverse)

/-- Scan for the capture of the lazy regex /:(.*?);/ starting right after a
    ':' : the characters up to the first ';'.  Fails if no ';' follows, or a
    newline intervenes ('.' does not match a newline). -/
def takeToSemicolon : List Char → Option (List Char)
  | [] => none
  | c :: rest =>
    if c = ';' then some []
    else if c = '\n' then none
    else
      match takeToSemicolon rest with
      | none => none
      | some tail => some (c :: tail)

/-- The capture group of header.match(/:(.*?);/): the leftmost ':' that is
    followed (newline-free) by a ';' starts the match; the capture is the
    text strictly between that ':' and the first ';' after it. -/
def extractMime : List Char → Option String
  | [] => none
  | c :: rest =>
    if c = ':' then
      match takeToSemicolon rest with
      | some l => some (String.mk l)
      | none => extractMime rest
    else extractMime rest

/-- Value of one base64 alphabet character, none for a non-alphabet char. -/
def b64Val (c : Char) : Option Nat :=
  if 'A' ≤ c ∧ c ≤ 'Z' then some (c.toNat - 65)
  else if 'a' ≤ c ∧ c ≤ 'z' then some (c.toNat - 97 + 26)
  else if '0' ≤ c ∧ c ≤ '9' then some (c.toNat - 48 + 52)
  else if c = '+' then some 62
  else if c = '/' then some 63
  else none

/-- Decode base64 characters (padding already stripped) into bytes, as
    window.atob does: groups of four chars give three bytes, a final group
    of two or three chars gives one or two bytes, a single leftover char is
    an error. -/
def atobChars : List Char → Option (List Nat)
  | [] => some []
  | [_] => none
  | [a, b] =>
    match b64Val a, b64Val b with
    | some va, some vb => some [va * 4 + vb / 16]
    | _, _ => none
  | [a, b, c] =>
    match b64Val a, b64Val b, b64Val c with
    | some va, some vb, some vc => some [va * 4 + vb / 16, (vb % 16) * 16 + vc / 4]
    | _, _, _ => none
  | a :: b :: c :: d :: rest =>
    match b64Val a, b64Val b, b64Val c, b64Val d, atobChars rest with
    | some va, some vb, some vc, some vd, some more =>
      some ([va * 4 + vb / 16, (vb % 16) * 16 + vc / 4, (vc % 4) * 64 + vd] ++ more)
    | _, _, _, _, _ => none

/-- Strip up to two trailing '=' padding characters, as window.atob allows. -/
def stripPadding (cs : List Char) : List Char :=
  match cs.reverse with
  | '=' :: '=' :: rest => rest.reverse
  | '=' :: rest => rest.reverse
  | _ => cs

/-- window.atob on a character list: none models the thrown DOMException. -/
def atob (cs : List Char) : Option (List Nat) :=
  atobChars (stripPadding cs)

/-- dataURLtoFile from App.tsx: split on ',', fail if fewer than two
    segments; extract the MIME type between ':' and ';' of the header, fail
    if absent or empty; base64-decode the second segment into bytes. -/
def dataURLtoFile (dataurl filename : String) : Except String ImageFile :=
  let arr := splitComma dataurl.toList
  if arr.length < 2 then Except.error ("Invalid data URL")
  else
    match extractMime (arr.headD []) with
    | none => Except.error ("Could not parse MIME type from data URL")
    | some mime =>
      if mime = "" then Except.error ("Could not parse MIME type from data URL")
      else
        match atob (arr.getD 1 []) with
        | none => Except.error ("InvalidCharacterError")
        | some bytes => Except.ok { name := filename, mime := mime, bytes := bytes }

/-- The data URL has a comma separator (split yields at least 2 segments). -/
def hasCommaSeparator (dataurl : String) : Prop :=
  2 ≤ (splitComma dataurl.toList).length

/-- The header segment of the data URL has a parsable, non-empty MIME
    segment between ':' and ';' (mimeMatch and mimeMatch[1] both truthy). -/
def parsableMime (dataurl : String) : Prop :=
  ∃ m, extractMime ((splitComma dataurl.toList).headD []) = some m ∧ m ≠ ""

deriving instance DecidableEq for Except

/-- The result is one of the two malformed-payload errors thrown by
    dataURLtoFile itself (not the atob DOMException). -/
def isMalformedError : Except String ImageFile → Prop
  | Except.error msg =>
    msg = "Invalid data URL" ∨ msg = "Could not parse MIME type from data URL"
  | Except.ok _ => False

instance : DecidablePred isMalformedError := by
  intro r
  cases r with
  | error msg => exact inferInstanceAs (Decidable (_ ∨ _))
  | ok _ => exact inferInstanceAs (Decidable False)

/-- createUserProfile from userService.ts: the new Firestore user document,
    with the sign-up bonus of 25 credits and its single transaction. -/
def createUserProfile (uid name email date : String) : User :=
  { uid := uid, name := name, email := email, credits := 25,
    creditHistory := [{ reason := "Sign-up bonus", amount := 25, date := date }] }

/-- Sum of the transaction amounts of a credit history. -/
def sumAmounts (txs : List CreditTransaction) : Int :=
  (txs.map (fun t => t.amount)).sum

/-- updateUserCredits from userService.ts, on the stored user document:
    FieldValue.increment(amount) on credits and FieldValue.arrayUnion of the
    new transaction (arrayUnion does not append an element that is already
    present).  The re-read's display sort of creditHistory (newest first) is
    presentation-only and not part of the ledger state modelled here. -/
def updateUserCredits (u : User) (amount : Int) (reason date : String) : User :=
  let tx : CreditTransaction := { reason := reason, amount := amount, date := date }
  { u with
    credits := u.credits + amount,
    creditHistory :=
      if tx ∈ u.creditHistory then u.creditHistory else u.creditHistory ++ [tx] }

/-- updateGalleryImage from userService.ts, applied with the partial update
    used by handleUpscaleImage: merge the new url and isUpscaled := true
    into the stored gallery document, leaving the other fields as stored. -/
def updateGalleryImage (img : GeneratedImage) (newUrl : String) : GeneratedImage :=
  { img with url := newUrl, isUpscaled := true }

/-- The App component state relevant to the claims: auth/profile, app mode,
    the edit history with its cursor, the prompt, loading flag, surfaced
    error, the two hotspot states, active tab, crop state, and the gallery. -/
structure AppState where
  currentUser : Option User
  appMode : AppMode
  history : List ImageFile
  historyIndex : Int
  prompt : String
  isLoading : Bool
  error : Option AppError
  editHotspot : Option Hotspot
  displayHotspot : Option Hotspot
  activeTab : Tab
  crop : Option CropRect
  completedCrop : Option CropRect
  gallery : List GeneratedImage
deriving DecidableEq

/-- history[historyIndex] ?? null (an out-of-range JS index reads undefined). -/
def currentImage (s : AppState) : Option ImageFile :=
  if s.historyIndex < 0 then none else s.history.get? s.historyIndex.toNat

/-- canUndo = historyIndex > 0. -/
def canUndo (s : AppState) : Bool :=
  s.historyIndex > 0

/-- canRedo = historyIndex < history.length - 1. -/
def canRedo (s : AppState) : Bool :=
  s.historyIndex < (s.history.length : Int) - 1

/-- handleDeductCredits from App.tsx: false without touching the ledger when
    no user is loaded; when credits < amount, set the insufficient-credits
    error, route to the pricing screen, and return false with no debit;
    otherwise apply the signed adjustment (-amount) and return true.  The
    successful Firestore write is applied to the local state. -/
def handleDeductCredits (s : AppState) (amount : Int) (reason date : String) :
    AppState × Bool :=
  match s.currentUser with
  | none => (s, false)
  | some u =>
    if u.credits < amount then
      ({ s with error := some (AppError.insufficientCredits amount u.credits),
                appMode := AppMode.pricing }, false)
    else
      ({ s with currentUser := some (updateUserCredits u (-amount) reason date) }, true)

/-- addImageToHistory from App.tsx: slice(0, historyIndex + 1), push the new
    file, set the cursor to the new last index, clear the crop state. -/
def addImageToHistory (s : AppState) (newImageFile : ImageFile) : AppState :=
  let newHistory := s.history.take (s.historyIndex + 1).toNat ++ [newImageFile]
  { s with
    history := newHistory,
    historyIndex := (newHistory.length : Int) - 1,
    crop := none,
    completedCrop := none }

/-- handleImageUpload from App.tsx: clear the error, replace the history by
    the single uploaded file with cursor 0, clear both hotspots, reset the
    active tab to promptEdit, clear the crop state, enter editor mode. -/
def handleImageUpload (s : AppState) (file : ImageFile) : AppState :=
  { s with
    error := none,
    history := [file],
    historyIndex := 0,
    editHotspot := none,
    displayHotspot := none,
    activeTab := Tab.promptEdit,
    crop := none,
    completedCrop := none,
    appMode := AppMode.editor }

/-- The catch block of handleGenericEdit: surface the failure, issue the
    compensating +cost adjustment with reason "Refund: " ++ reason, clear the
    loading flag. -/
def catchEditFailure (s : AppState) (cost : Int) (reason msg date : String) : AppState :=
  let s1 := { s with error := some (AppError.editFailed reason msg) }
  match s1.currentUser with
  | some u =>
    { s1 with
      currentUser := some (updateUserCredits u cost ("Refund: " ++ reason) date),
      isLoading := false }
  | none => { s1 with isLoading := false }

/-- handleGenericEdit from App.tsx.  editResult is the awaited outcome of
    the gateway editFunction (ok = the returned data URL, error = the thrown
    message).  Returns the new state and the function's result value: none
    when it returned early (no image, or the deduct failed), some true on a
    committed edit, some false when the catch block ran.  The try block
    converts the data URL via dataURLtoFile (whose exception is caught by
    the same catch) and appends the new file to the history. -/
def handleGenericEdit (s : AppState) (editResult : Except String String)
    (cost : Int) (reason fileSuffix date : String) :
    AppState × Option Bool :=
  match currentImage s with
  | none => ({ s with error := some AppError.noImageLoaded }, none)
  | some _ =>
    let d := handleDeductCredits s cost reason date
    if !d.2 then (d.1, none)
    else
      let s2 := { d.1 with isLoading := true, error := none }
      match editResult with
      | Except.ok resultUrl =>
        match dataURLtoFile resultUrl (fileSuffix ++ "-" ++ date ++ ".png") with
        | Except.ok newImageFile =>
          ({ addImageToHistory s2 newImageFile with isLoading := false }, some true)
        | Except.error msg => (catchEditFailure s2 cost reason msg date, some false)
      | Except.error msg => (catchEditFailure s2 cost reason msg date, some false)

/-- handleGenerate from App.tsx (the localized-edit submit): reject an empty
    prompt or a missing hotspot, run the generic edit at cost 2 with reason
    "AI Local Edit", and clear both hotspots only when it returned true. -/
def handleGenerate (s : AppState) (editResult : Except String String) (date : String) :
    AppState :=
  if jsTrim s.prompt = "" then { s with error := some AppError.promptMissing }
  else if s.editHotspot = none then { s with error := some AppError.hotspotMissing }
  else
    let r := handleGenericEdit s editResult 2 ("AI Local Edit") ("edited") date
    if r.2 = some true then
      { r.1 with editHotspot := none, displayHotspot := none }
    else r.1

/-- handleApplyFilter from App.tsx: a generic edit at cost 2, reason
    "AI Filter" (the filter prompt itself only feeds the gateway call). -/
def handleApplyFilter (s : AppState) (editResult : Except String String) (date : String) :
    AppState :=
  (handleGenericEdit s editResult 2 ("AI Filter") ("filtered") date).1

/-- handleApplyAdjustment from App.tsx: a generic edit at cost 2, reason
    "AI Prompt Edit". -/
def handleApplyAdjustment (s : AppState) (editResult : Except String String)
    (date : String) : AppState :=
  (handleGenericEdit s editResult 2 ("AI Prompt Edit") ("adjusted") date).1

/-- handleUndo from App.tsx: when canUndo, step the cursor back and clear
    both hotspots; otherwise nothing. -/
def handleUndo (s : AppState) : AppState :=
  if canUndo s then
    { s with
      historyIndex := s.historyIndex - 1,
      editHotspot := none,
      displayHotspot := none }
  else s

/-- handleRedo from App.tsx: when canRedo, step the cursor forward and clear
    both hotspots; otherwise nothing. -/
def handleRedo (s : AppState) : AppState :=
  if canRedo s then
    { s with
      historyIndex := s.historyIndex + 1,
      editHotspot := none,
      displayHotspot := none }
  else s

/-- handleReset from App.tsx: on a non-empty history set the cursor to 0,
    clear the error and both hotspots; no-op on an empty history. -/
def handleReset (s : AppState) : AppState :=
  if s.history.length > 0 then
    { s with
      historyIndex := 0,
      error := none,
      editHotspot := none,
      displayHotspot := none }
  else s

/-- handleGenerate from components/ImageGenerator.tsx, the text-to-image
    flow: reject an empty prompt (component-local error only), deduct 2
    credits with reason "Image Generation", then attempt the generation.
    On success the data URL is handed to onImageGenerated (returned here as
    some url); on failure the component sets its local error message and
    issues NO compensating refund.  genResult is the awaited outcome of the
    generateImage gateway call. -/
def generatorGenerate (s : AppState) (genPrompt : String)
    (genResult : Except String String) (date : String) :
    AppState × Option String :=
  if jsTrim genPrompt = "" then (s, none)
  else
    let d := handleDeductCredits s 2 ("Image Generation") date
    if !d.2 then (d.1, none)
    else
      match genResult with
      | Except.ok imageUrl => (d.1, some imageUrl)
      | Except.error _ => (d.1, none)

/-- The catch block of handleUpscaleImage: surface the failure, refund the
    cost with reason "Refund: Upscale " ++ id, and return the original
    gallery entry unchanged. -/
def catchUpscaleFailure (s : AppState) (image : GeneratedImage) (cost : Int)
    (msg date : String) : AppState × Option GeneratedImage :=
  let s1 := { s with error := some (AppError.upscaleFailed msg) }
  match s1.currentUser with
  | some u =>
    ({ s1 with
       currentUser :=
         some (updateUserCredits u cost ("Refund: Upscale " ++ image.id) date) },
     some image)
  | none => (s1, some image)

/-- handleUpscaleImage from App.tsx: nothing without a user; deduct 1 credit
    with reason "Upscale: " ++ id; on gateway success convert the returned
    data URL to a file, upload it (uploadUrl is the download URL returned by
    the Blob store), merge {url, isUpscaled := true} into the stored entry,
    and replace it in the in-memory gallery; any thrown error is caught,
    refunded, and the original entry returned.  upscaleResult is the awaited
    outcome of the upscaleImage gateway call. -/
def handleUpscaleImage (s : AppState) (image : GeneratedImage)
    (upscaleResult : Except String String) (uploadUrl : String) (date : String) :
    AppState × Option GeneratedImage :=
  match s.currentUser with
  | none => (s, none)
  | some _ =>
    let cost : Int := 1
    let d := handleDeductCredits s cost ("Upscale: " ++ image.id) date
    if !d.2 then (d.1, none)
    else
      match upscaleResult with
      | Except.ok upscaledUrl =>
        match dataURLtoFile upscaledUrl ("upscaled-" ++ image.id ++ ".jpeg") with
        | Except.ok _ =>
          let updatedImage := updateGalleryImage image uploadUrl
          ({ d.1 with
             gallery := d.1.gallery.map
               (fun img => if img.id = image.id then updatedImage else img) },
           some updatedImage)
        | Except.error msg => catchUpscaleFailure d.1 image cost msg date
      | Except.error msg => catchUpscaleFailure d.1 image cost msg date

/-- An inlineData payload of a response part (geminiService.ts). -/
structure InlineData where
  mimeType : String
  data : String
deriving DecidableEq

/-- One part of a candidate's content. -/
structure ResponsePart where
  inlineData : Option InlineData
  text : Option String
deriving DecidableEq

/-- One response candidate: its content parts and finish reason. -/
structure Candidate where
  parts : List ResponsePart
  finishReason : Option String
deriving DecidableEq

/-- The promptFeedback of a response. -/
structure PromptFeedback where
  blockReason : Option String
  blockReasonMessage : Option String
deriving DecidableEq

/-- GenerateContentResponse as consumed by handleApiResponse: the optional
    promptFeedback, the candidate list, and the response-level text. -/
structure GenerateContentResponse where
  promptFeedback : Option PromptFeedback
  candidates : List Candidate
  text : Option String
deriving DecidableEq

/-- response.promptFeedback?.blockReason via optional chaining. -/
def blockReasonOf (r : GenerateContentResponse) : Option String :=
  r.promptFeedback.bind (fun fb => fb.blockReason)

/-- response.candidates?.[0]?.content?.parts?.find(part => part.inlineData). -/
def findImagePart (r : GenerateContentResponse) : Option ResponsePart :=
  match r.candidates.head? with
  | none => none
  | some c => c.parts.find? (fun part => part.inlineData.isSome)

/-- response.candidates?.[0]?.finishReason via optional chaining. -/
def responseFinishReason (r : GenerateContentResponse) : Option String :=
  match r.candidates.head? with
  | none => none
  | some c => c.finishReason

/-- The single error type thrown by handleApiResponse: the operation context
    (e.g. "edit", "filter", "upscale") and the detail message.  The source
    interpolates both into one Error message string. -/
structure GenerationFailed where
  context : String
  detail : String
deriving DecidableEq

/-- The detail of the no-image error: when response.text trims to something
    non-empty it is echoed, otherwise the generic rephrasing guidance. -/
def noImageDetail (r : GenerateContentResponse) : String :=
  match r.text with
  | some t =>
    let tt := jsTrim t
    if tt = "" then
      "This can happen due to safety filters or if the request is too complex."
    else "The model responded with text: " ++ tt
  | none => "This can happen due to safety filters or if the request is too complex."

/-- handleApiResponse from geminiService.ts: (1) a blockReason throws the
    blocked error; (2) an inlineData part in the first candidate yields the
    data URL; (3) a present finishReason other than "STOP" throws the
    stopped-unexpectedly error; (4) otherwise the no-image error (with the
    optional text feedback) is thrown. -/
def handleApiResponse (r : GenerateContentResponse) (context : String) :
    Except GenerationFailed String :=
  match blockReasonOf r with
  | some blockReason =>
    Except.error
      { context := context,
        detail := "Request was blocked. Reason: " ++ blockReason ++ ". "
          ++ ((r.promptFeedback.bind (fun fb => fb.blockReasonMessage)).getD "") }
  | none =>
    match findImagePart r with
    | some part =>
      match part.inlineData with
      | some d => Except.ok ("data:" ++ d.mimeType ++ ";base64," ++ d.data)
      | none =>
        match responseFinishReason r with
        | some finishReason =>
          if finishReason ≠ "STOP" then
            Except.error
              { context := context,
                detail := "Image generation stopped unexpectedly. Reason: " ++ finishReason }
          else Except.error { context := context, detail := noImageDetail r }
        | none => Except.error { context := context, detail := noImageDetail r }
    | none =>
      match responseFinishReason r with
      | some finishReason =>
        if finishReason ≠ "STOP" then
          Except.error
            { context := context,
              detail := "Image generation stopped unexpectedly. Reason: " ++ finishReason }
        else Except.error { context := context, detail := noImageDetail r }
      | none => Except.error { context := context, detail := noImageDetail r }

/-- The four-way classification of a remote response (spec 4.3), derived
    from the same checks in the same order as handleApiResponse. -/
inductive ResponseClass where
  | blocked (reason : String)
  | success (mimeType data : String)
  | stoppedEarly (reason : String)
  | noImage (detail : String)
deriving DecidableEq

/-- Classify a response into exactly one of the four classes, mirroring the
    check order of handleApiResponse. -/
def classifyResponse (r : GenerateContentResponse) : ResponseClass :=
  match blockReasonOf r with
  | some blockReason => ResponseClass.blocked blockReason
  | none =>
    match findImagePart r with
    | some part =>
      match part.inlineData with
      | some d => ResponseClass.success d.mimeType d.data
      | none =>
        match responseFinishReason r with
        | some finishReason =>
          if finishReason ≠ "STOP" then ResponseClass.stoppedEarly finishReason
          else ResponseClass.noImage (noImageDetail r)
        | none => ResponseClass.noImage (noImageDetail r)
    | none =>
      match responseFinishReason r with
      | some finishReason =>
        if finishReason ≠ "STOP" then ResponseClass.stoppedEarly finishReason
        else ResponseClass.noImage (noImageDetail r)
      | none => ResponseClass.noImage (noImageDetail r)

/-- One user-triggered history operation of the edit session. -/
inductive HistoryOp where
  | upload (file : ImageFile)
  | append (file : ImageFile)
  | undo
  | redo
  | reset

/-- Apply one history operation via the App handlers. -/
def applyHistoryOp (s : AppState) : HistoryOp → AppState
  | HistoryOp.upload f => handleImageUpload s f
  | HistoryOp.append f => addImageToHistory s f
  | HistoryOp.undo => handleUndo s
  | HistoryOp.redo => handleRedo s
  | HistoryOp.reset => handleReset s

/-- Run a sequence of history operations. -/
def runHistoryOps (s : AppState) (ops : List HistoryOp) : AppState :=
  ops.foldl applyHistoryOp s

/-- The initial App component state: no user, start mode, empty history with
    cursor -1, everything else cleared. -/
def initialAppState : AppState :=
  { currentUser := none,
    appMode := AppMode.start,
    history := [],
    historyIndex := -1,
    prompt := "",
    isLoading := false,
    error := none,
    editHotspot := none,
    displayHotspot := none,
    activeTab := Tab.promptEdit,
    crop := none,
    completedCrop := none,
    gallery := [] }

/-- The history-linearity invariant of the edit session: the cursor is -1
    exactly on the empty history, and inside [0, length - 1] otherwise. -/
def historyInv (s : AppState) : Prop :=
  (s.history = [] → s.historyIndex = -1) ∧
  (s.history ≠ [] → 0 ≤ s.historyIndex ∧ s.historyIndex ≤ (s.history.length : Int) - 1)

instance (s : AppState) : Decidable (historyInv s) :=
  inferInstanceAs (Decidable (_ ∧ _))

/-- Concrete artifact fixture. -/
def fileA : ImageFile :=
  { name := "a.png", mime := "image/png", bytes := [1] }

/-- Concrete artifact fixture. -/
def fileB : ImageFile :=
  { name := "b.png", mime := "image/png", bytes := [2] }

/-- Concrete artifact fixture. -/
def fileC : ImageFile :=
  { name := "c.png", mime := "image/png", bytes := [3] }

/-- Concrete user fixture with a given balance. -/
def demoUser (c : Int) : User :=
  { uid := "u1", name := "Dana", email := "dana@example.com", credits := c,
    creditHistory := [{ reason := "Sign-up bonus", amount := 25, date := "2026-01-01" }] }

/-- Concrete mid-edit session fixture: two-entry history at cursor 1, an
    active local-edit hotspot, a non-empty prompt, given balance. -/
def editingState (c : Int) : AppState :=
  { initialAppState with
    currentUser := some (demoUser c),
    appMode := AppMode.editor,
    history := [fileA, fileB],
    historyIndex := 1,
    prompt := "make the sky dramatic",
    editHotspot := some { x := 3, y := 4 },
    displayHotspot := some { x := 1, y := 2 },
    activeTab := Tab.localEdit }

/-- Concrete gallery entry fixture. -/
def demoGalleryEntry : GeneratedImage :=
  { id := "g1", url := "https://files.example/old.jpeg", prompt := "a cat",
    isUpscaled := false, createdAt := "2026-01-01" }

/-- Concrete well-formed data URL fixture ("ABC" as base64). -/
def okDataUrl : String :=
  "data:image/png;base64,QUJD"

/-- Concrete three-entry history fixture at cursor 2. -/
def threeEntryState : AppState :=
  { initialAppState with history := [fileA, fileB, fileC], historyIndex := 2 }

/-- Concrete blocked-response fixture. -/
def blockedResponse : GenerateContentResponse :=
  { promptFeedback := some { blockReason := some "SAFETY", blockReasonMessage := none },
    candidates := [],
    text := none }

/-- Concrete successful-response fixture carrying one inline image part. -/
def successResponse : GenerateContentResponse :=
  { promptFeedback := none,
    candidates :=
      [ { parts := [ { inlineData := some { mimeType := "image/png", data := "QUJD" },
                       text := none } ],
          finishReason := some "STOP" } ],
    text := none }

instance (d : String) : Decidable (hasCommaSeparator d) :=
  inferInstanceAs (Decidable (2 ≤ _))

theorem c7_helper_ok (dataurl filename m : String) (bytes : List Nat)
    (hm : extractMime ((splitComma dataurl.toList).headD []) = some m)
    (hne : m ≠ "")
    (hc : 2 ≤ (splitComma dataurl.toList).length)
    (hb : atob ((splitComma dataurl.toList).getD 1 []) = some bytes) :
    dataURLtoFile dataurl filename
      = Except.ok { name := filename, mime := m, bytes := bytes } := by
  unfold dataURLtoFile
  rw [if_neg (by omega), hm]
  dsimp only
  rw [if_neg hne, hb]

/-- C7: dataURLtoFile fails with a malformed-payload error exactly when the
    payload has no comma separator or its header has no parsable non-empty
    MIME segment between ':' and ';'; on a well-formed data URL it returns
    the named file whose MIME type is the extracted segment and whose bytes
    are the base64-decoded body segment. -/
theorem c7_artifact_conversion (dataurl filename : String) :
    (isMalformedError (dataURLtoFile dataurl filename)
      ↔ ¬ hasCommaSeparator dataurl ∨ ¬ parsableMime dataurl) ∧
    (∀ (m : String) (bytes : List Nat),
      hasCommaSeparator dataurl →
      extractMime ((splitComma dataurl.toList).headD []) = some m →
      m ≠ "" →
      atob ((splitComma dataurl.toList).getD 1 []) = some bytes →
      dataURLtoFile dataurl filename
        = Except.ok { name := filename, mime := m, bytes := bytes }) := by
  constructor
  · by_cases hlen : (splitComma dataurl.toList).length < 2
    · unfold dataURLtoFile
      rw [if_pos hlen]
      apply iff_of_true
      · dsimp only [isMalformedError]
        left
        rfl
      · left
        unfold hasCommaSeparator
        omega
    · have hge : 2 ≤ (splitComma dataurl.toList).length := by omega
      unfold dataURLtoFile
      rw [if_neg hlen]
      cases hm : extractMime ((splitComma dataurl.toList).headD []) with
      | none =>
        dsimp only
        apply iff_of_true
        · dsimp only [isMalformedError]
          right
          rfl
        · right
          rintro ⟨m, hm2, _⟩
          rw [hm] at hm2
          exact Option.noConfusion hm2
      | some m =>
        dsimp only
        by_cases hme : m = ""
        · rw [if_pos hme]
          apply iff_of_true
          · dsimp only [isMalformedError]
            right
            rfl
          · right
            rintro ⟨m2, hm2, hne2⟩
            rw [hm] at hm2
            exact hne2 ((Option.some_injective _ hm2).symm.trans hme)
        · rw [if_neg hme]
          have hrhs : ¬ (¬ hasCommaSeparator dataurl ∨ ¬ parsableMime dataurl) := by
            rintro (hcon | hcon)
            · exact hcon hge
            · exact hcon ⟨m, hm, hme⟩
          cases hb : atob ((splitComma dataurl.toList).getD 1 []) with
          | none =>
            apply iff_of_false
            · dsimp only [isMalformedError]
              rintro (h | h) <;> exact absurd h (by decide)
            · exact hrhs
          | some bytes =>
            apply iff_of_false
            · dsimp only [isMalformedError]
              exact not_false
            · exact hrhs
  · intro m bytes hc hm hne hb
    exact c7_helper_ok dataurl filename m bytes hm hne hc hb

theorem c7_witness :
    hasCommaSeparator okDataUrl ∧
    dataURLtoFile okDataUrl ("edited.png")
      = Except.ok { name := "edited.png", mime := "image/png", bytes := [65, 66, 67] } := by
  refine ⟨by decide, ?_⟩
  exact (c7_artifact_conversion okDataUrl ("edited.png")).2 ("image/png") [65, 66, 67]
    (by decide) (by decide) (by decide) (by decide)

/-- C8: uploading replaces the whole history by the single uploaded artifact
    at cursor 0, clears both hotspots and the crop state, and resets the
    active tab to promptEdit, whatever the prior session state was. -/
theorem c8_upload_semantics (s : AppState) (f : ImageFile) :
    (handleImageUpload s f).history = [f] ∧
    (handleImageUpload s f).historyIndex = 0 ∧
    (handleImageUpload s f).editHotspot = none ∧
    (handleImageUpload s f).displayHotspot = none ∧
    (handleImageUpload s f).crop = none ∧
    (handleImageUpload s f).completedCrop = none ∧
    (handleImageUpload s f).activeTab = Tab.promptEdit :=
  ⟨rfl, rfl, rfl, rfl, rfl, rfl, rfl⟩

/-- C9: a newly created profile has exactly 25 credits and exactly one
    credit-history transaction, the +25 "Sign-up bonus", so the balance
    equals the sum of the initial transaction amounts. -/
theorem c9_signup_profile (uid name email date : String) :
    (createUserProfile uid name email date).credits = 25 ∧
    (createUserProfile uid name email date).creditHistory
      = [{ reason := "Sign-up bonus", amount := 25, date := date }] ∧
    sumAmounts (createUserProfile uid name email date).creditHistory
      = (createUserProfile uid name email date).credits := by
  refine ⟨rfl, rfl, ?_⟩
  simp [createUserProfile, sumAmounts]

theorem historyInv_apply (s : AppState) (h : historyInv s) (op : HistoryOp) :
    historyInv (applyHistoryOp s op) := by
  obtain ⟨h1, h2⟩ := h
  cases op with
  | upload f =>
    constructor
    · intro hcon
      exact absurd hcon (by simp [applyHistoryOp, handleImageUpload])
    · intro _
      simp [applyHistoryOp, handleImageUpload]
  | append f =>
    constructor
    · intro hcon
      exact absurd hcon (by simp [applyHistoryOp, addImageToHistory])
    · intro _
      simp [applyHistoryOp, addImageToHistory]
  | undo =>
    simp only [applyHistoryOp, handleUndo]
    split
    case isTrue hc =>
      simp only [canUndo, decide_eq_true_eq] at hc
      unfold historyInv
      dsimp only
      constructor
      · intro he
        have := h1 he
        omega
      · intro hne
        obtain ⟨ha, hb⟩ := h2 hne
        omega
    case isFalse hc => exact ⟨h1, h2⟩
  | redo =>
    simp only [applyHistoryOp, handleRedo]
    split
    case isTrue hc =>
      simp only [canRedo, decide_eq_true_eq] at hc
      unfold historyInv
      dsimp only
      constructor
      · intro he
        have hlen : s.history.length = 0 := by rw [he]; rfl
        have := h1 he
        omega
      · intro hne
        obtain ⟨ha, hb⟩ := h2 hne
        omega
    case isFalse hc => exact ⟨h1, h2⟩
  | reset =>
    simp only [applyHistoryOp, handleReset]
    split
    case isTrue hc =>
      unfold historyInv
      dsimp only
      constructor
      · intro he
        have hlen : s.history.length = 0 := by rw [he]; rfl
        omega
      · intro _
        omega
    case isFalse hc => exact ⟨h1, h2⟩

theorem historyInv_run (ops : List HistoryOp) (s : AppState) (h : historyInv s) :
    historyInv (runHistoryOps s ops) := by
  induction ops generalizing s with
  | nil => exact h
  | cons op rest ih => exact ih (applyHistoryOp s op) (historyInv_apply s h op)

/-- C2: from the empty session, every sequence of upload/append/undo/redo/
    reset operations keeps the cursor within [0, length - 1] on a non-empty
    history and at -1 on the empty one; appending while the cursor sits
    before the end discards every entry past the cursor (the new history is
    the first cursor+1 old entries plus the new artifact) and leaves the
    cursor at the new last index. -/
theorem c2_history_linearity (ops : List HistoryOp) (f : ImageFile) :
    historyInv (runHistoryOps initialAppState ops) ∧
    (∀ s : AppState, historyInv s → s.history ≠ [] →
      (addImageToHistory s f).history.length = s.historyIndex.toNat + 2 ∧
      (addImageToHistory s f).historyIndex
        = ((addImageToHistory s f).history.length : Int) - 1 ∧
      (∀ i : Nat, i ≤ s.historyIndex.toNat →
        (addImageToHistory s f).history.get? i = s.history.get? i) ∧
      (addImageToHistory s f).history.get? (s.historyIndex.toNat + 1) = some f) := by
  constructor
  · exact historyInv_run ops initialAppState (by decide)
  · intro s hinv hne
    obtain ⟨ha, hb⟩ := hinv.2 hne
    have hlen : s.historyIndex.toNat + 1 ≤ s.history.length := by omega
    have htake : (s.history.take (s.historyIndex + 1).toNat).length
        = s.historyIndex.toNat + 1 := by
      rw [List.length_take]
      omega
    refine ⟨?_, rfl, ?_, ?_⟩
    · simp only [addImageToHistory, List.length_append, List.length_cons,
        List.length_nil, htake]
    · intro i hi
      simp only [addImageToHistory]
      rw [List.get?_append (by omega)]
      exact List.get?_take (by omega)
    · simp only [addImageToHistory]
      rw [show s.historyIndex.toNat + 1 = (s.history.take (s.historyIndex + 1).toNat).length from htake.symm]
      exact List.get?_concat_length _ _

theorem c2_witness :
    historyInv (runHistoryOps initialAppState
      [HistoryOp.upload fileA, HistoryOp.append fileB, HistoryOp.undo]) ∧
    (addImageToHistory threeEntryState fileC).history.length = 4 := by
  have h := c2_history_linearity
    [HistoryOp.upload fileA, HistoryOp.append fileB, HistoryOp.undo] fileC
  refine ⟨h.1, ?_⟩
  have h2 := (h.2 threeEntryState (by decide) (by decide)).1
  simpa [threeEntryState, initialAppState] using h2

/-- C5 counterexample: on the two-entry history [fileA, fileB] at cursor 1,
    reset moves the cursor to 0 without truncating, and redo into the
    subsequent version is immediately available (canRedo holds and redo
    advances the cursor to 1), contradicting "redo into the subsequent
    versions remains unavailable until a new edit is appended". -/
theorem c5_counterexample :
    (handleReset { initialAppState with history := [fileA, fileB], historyIndex := 1 }).historyIndex = 0 ∧
    (handleReset { initialAppState with history := [fileA, fileB], historyIndex := 1 }).history = [fileA, fileB] ∧
    canRedo (handleReset { initialAppState with history := [fileA, fileB], historyIndex := 1 }) = true ∧
    (handleRedo (handleReset { initialAppState with history := [fileA, fileB], historyIndex := 1 })).historyIndex = 1 := by
  decide

/-- C5 (amended): resetToOriginal sets the cursor to 0, is a no-op on the
    empty history, does not truncate the sequence, and makes the original
    artifact (index 0) current; on a history with more than one entry, redo
    into the subsequent versions is available immediately after the reset
    (canRedo = cursor < length - 1 holds at cursor 0). -/
theorem c5_reset_semantics (s : AppState) :
    (s.history = [] → handleReset s = s) ∧
    (s.history ≠ [] →
      (handleReset s).historyIndex = 0 ∧
      (handleReset s).history = s.history ∧
      currentImage (handleReset s) = s.history.get? 0) ∧
    (1 < s.history.length → canRedo (handleReset s) = true) := by
  refine ⟨?_, ?_, ?_⟩
  · intro he
    unfold handleReset
    rw [if_neg (by rw [he]; simp)]
  · intro hne
    have hpos : 0 < s.history.length := List.length_pos.mpr hne
    unfold handleReset
    rw [if_pos hpos]
    refine ⟨rfl, rfl, ?_⟩
    unfold currentImage
    dsimp only
    rw [if_neg (by omega)]
    rfl
  · intro hgt
    unfold handleReset
    rw [if_pos (by omega)]
    unfold canRedo
    dsimp only
    simp only [decide_eq_true_eq]
    omega

theorem c5_witness :
    threeEntryState.history ≠ [] ∧
    (handleReset threeEntryState).historyIndex = 0 ∧
    (handleReset threeEntryState).history = [fileA, fileB, fileC] ∧
    currentImage (handleReset threeEntryState) = some fileA ∧
    canRedo (handleReset threeEntryState) = true := by
  have h := c5_reset_semantics threeEntryState
  obtain ⟨h1, h2, h3⟩ := (h.2.1 (by decide))
  exact ⟨by decide, h1, by rw [h2]; rfl, by rw [h3]; rfl, h.2.2 (by decide)⟩

theorem handleGenericEdit_hotspot (s : AppState) (res : Except String String)
    (cost : Int) (reason fileSuffix date : String) :
    (handleGenericEdit s res cost reason fileSuffix date).1.editHotspot = s.editHotspot ∧
    (handleGenericEdit s res cost reason fileSuffix date).1.displayHotspot = s.displayHotspot := by
  unfold handleGenericEdit handleDeductCredits catchEditFailure addImageToHistory
  repeat' split
  all_goals exact ⟨rfl, rfl⟩

/-- C4 counterexample: a failed local-edit attempt (hotspot set, non-empty
    prompt, sufficient credits, gateway throws) surfaces the failure but
    does NOT clear the hotspot, contradicting "cleared after every
    local-edit attempt regardless of whether the attempt succeeds or
    fails". -/
theorem c4_counterexample :
    (handleGenerate (editingState 10) (Except.error ("remote failure")) ("2026-02-03")).error
      = some (AppError.editFailed ("AI Local Edit") ("remote failure")) ∧
    (handleGenerate (editingState 10) (Except.error ("remote failure")) ("2026-02-03")).editHotspot
      = some { x := 3, y := 4 } := by
  decide

/-- C4 (amended): the hotspot is cleared after every performed undo and
    every performed redo, and after a SUCCESSFUL local-edit attempt; a
    failed attempt leaves the hotspot unchanged. -/
theorem c4_hotspot_clearing (s : AppState) (res : Except String String) (date : String) :
    (canUndo s = true →
      (handleUndo s).editHotspot = none ∧ (handleUndo s).displayHotspot = none) ∧
    (canRedo s = true →
      (handleRedo s).editHotspot = none ∧ (handleRedo s).displayHotspot = none) ∧
    (jsTrim s.prompt ≠ "" → s.editHotspot ≠ none →
      ((handleGenericEdit s res 2 ("AI Local Edit") ("edited") date).2 = some true →
        (handleGenerate s res date).editHotspot = none ∧
        (handleGenerate s res date).displayHotspot = none) ∧
      ((handleGenericEdit s res 2 ("AI Local Edit") ("edited") date).2 = some false →
        (handleGenerate s res date).editHotspot = s.editHotspot)) := by
  refine ⟨?_, ?_, ?_⟩
  · intro hc
    unfold handleUndo
    rw [if_pos hc]
    exact ⟨rfl, rfl⟩
  · intro hc
    unfold handleRedo
    rw [if_pos hc]
    exact ⟨rfl, rfl⟩
  · intro hp hh
    constructor
    · intro hok
      unfold handleGenerate
      rw [if_neg hp, if_neg hh, if_pos hok]
      exact ⟨rfl, rfl⟩
    · intro hfail
      unfold handleGenerate
      rw [if_neg hp, if_neg hh, if_neg (by rw [hfail]; simp)]
      exact (handleGenericEdit_hotspot s res 2 ("AI Local Edit") ("edited") date).1

theorem c4_witness :
    canUndo (editingState 10) = true ∧
    (handleUndo (editingState 10)).editHotspot = none ∧
    (handleGenericEdit (editingState 10) (Except.ok okDataUrl) 2 ("AI Local Edit") ("edited") ("2026-02-03")).2 = some true ∧
    (handleGenerate (editingState 10) (Except.ok okDataUrl) ("2026-02-03")).editHotspot = none ∧
    (handleGenericEdit (editingState 10) (Except.error ("boom")) 2 ("AI Local Edit") ("edited") ("2026-02-03")).2 = some false ∧
    (handleGenerate (editingState 10) (Except.error ("boom")) ("2026-02-03")).editHotspot
      = (editingState 10).editHotspot := by
  have h := c4_hotspot_clearing (editingState 10) (Except.ok okDataUrl) ("2026-02-03")
  have h2 := c4_hotspot_clearing (editingState 10) (Except.error ("boom")) ("2026-02-03")
  have hok : (handleGenericEdit (editingState 10) (Except.ok okDataUrl) 2 ("AI Local Edit") ("edited") ("2026-02-03")).2 = some true := by decide
  have hfail : (handleGenericEdit (editingState 10) (Except.error ("boom")) 2 ("AI Local Edit") ("edited") ("2026-02-03")).2 = some false := by decide
  refine ⟨by decide, (h.1 (by decide)).1, hok, ?_, hfail, ?_⟩
  · exact ((h.2.2 (by decide) (by decide)).1 hok).1
  · exact (h2.2.2 (by decide) (by decide)).2 hfail

/-- C3: with balance < cost, every guarded operation (the generic edit
    engine behind local edit / filter / adjustment on a loaded image, the
    image-generation flow, and the gallery upscale) reports the
    insufficient-credits condition with the required and available amounts,
    performs no debit, and leaves the ledger, the edit history, and the
    gallery unchanged. -/
theorem c3_insufficient_nonmutating
    (s : AppState) (u : User) (img : ImageFile) (gimg : GeneratedImage)
    (res : Except String String) (cost : Int)
    (reason suffix date gprompt uploadUrl : String)
    (hu : s.currentUser = some u) :
    (u.credits < cost → currentImage s = some img →
      (handleGenericEdit s res cost reason suffix date).1.currentUser = some u ∧
      (handleGenericEdit s res cost reason suffix date).1.history = s.history ∧
      (handleGenericEdit s res cost reason suffix date).1.historyIndex = s.historyIndex ∧
      (handleGenericEdit s res cost reason suffix date).1.error
        = some (AppError.insufficientCredits cost u.credits) ∧
      (handleGenericEdit s res cost reason suffix date).2 = none) ∧
    (u.credits < 2 → jsTrim gprompt ≠ "" →
      (generatorGenerate s gprompt res date).1.currentUser = some u ∧
      (generatorGenerate s gprompt res date).1.error
        = some (AppError.insufficientCredits 2 u.credits) ∧
      (generatorGenerate s gprompt res date).2 = none) ∧
    (u.credits < 1 →
      (handleUpscaleImage s gimg res uploadUrl date).1.currentUser = some u ∧
      (handleUpscaleImage s gimg res uploadUrl date).1.gallery = s.gallery ∧
      (handleUpscaleImage s gimg res uploadUrl date).1.error
        = some (AppError.insufficientCredits 1 u.credits) ∧
      (handleUpscaleImage s gimg res uploadUrl date).2 = none) := by
  refine ⟨?_, ?_, ?_⟩
  · intro hcred himg
    unfold handleGenericEdit handleDeductCredits
    rw [himg, hu]
    dsimp only
    rw [if_pos hcred]
    exact ⟨rfl, rfl, rfl, rfl, rfl⟩
  · intro hcred hp
    unfold generatorGenerate handleDeductCredits
    rw [if_neg hp, hu]
    dsimp only
    rw [if_pos hcred]
    exact ⟨rfl, rfl, rfl⟩
  · intro hcred
    unfold handleUpscaleImage handleDeductCredits
    rw [hu]
    dsimp only
    rw [if_pos hcred]
    exact ⟨rfl, rfl, rfl, rfl⟩

theorem c3_witness :
    (demoUser 1).credits < 2 ∧
    (handleGenericEdit (editingState 1) (Except.ok okDataUrl) 2 ("AI Local Edit") ("edited") ("2026-02-03")).1.currentUser
      = some (demoUser 1) ∧
    (handleGenericEdit (editingState 1) (Except.ok okDataUrl) 2 ("AI Local Edit") ("edited") ("2026-02-03")).1.history
      = (editingState 1).history ∧
    (handleGenericEdit (editingState 1) (Except.ok okDataUrl) 2 ("AI Local Edit") ("edited") ("2026-02-03")).1.error
      = some (AppError.insufficientCredits 2 1) ∧
    (handleGenericEdit (editingState 1) (Except.ok okDataUrl) 2 ("AI Local Edit") ("edited") ("2026-02-03")).2
      = none := by
  have h := (c3_insufficient_nonmutating (editingState 1) (demoUser 1) fileB demoGalleryEntry
    (Except.ok okDataUrl) 2 ("AI Local Edit") ("edited") ("2026-02-03") ("a cat") ("up")
    rfl).1 (by decide) (by decide)
  exact ⟨by decide, h.1, h.2.1, h.2.2.2.1, h.2.2.2.2⟩


/-- C1 counterexample: an image generation run with initial balance 5 ≥
    cost 2 whose AI call fails leaves the balance at 3, not at the initial
    5 — the generation flow issues no compensating refund (every ledger
    write in the run succeeded), contradicting the claim for the image
    generation operation. -/
theorem c1_counterexample :
    (generatorGenerate (editingState 5) ("a cat") (Except.error ("remote failure")) ("2026-02-03")).1.currentUser.map
        (fun v => v.credits) = some 3 ∧
    (3 : Int) ≠ 5 := by
  decide

/-- C1 (amended): for the guarded edit engine (local edit / filter /
    adjustment) and the gallery upscale, run with balance ≥ cost, the final
    balance is initial - cost when the AI operation succeeds and initial
    when it fails (the refund write succeeding); for image generation the
    final balance is initial - cost after success AND after failure — that
    flow issues no compensating refund. -/
theorem c1_ledger_conservation
    (s : AppState) (u : User) (img : ImageFile) (gimg : GeneratedImage)
    (cost : Int) (reason suffix date gprompt uploadUrl url msg : String)
    (hu : s.currentUser = some u) :
    (cost ≤ u.credits → currentImage s = some img →
      ((∃ f, dataURLtoFile url (suffix ++ "-" ++ date ++ ".png") = Except.ok f) →
        (handleGenericEdit s (Except.ok url) cost reason suffix date).1.currentUser.map
          (fun v => v.credits) = some (u.credits - cost)) ∧
      (handleGenericEdit s (Except.error msg) cost reason suffix date).1.currentUser.map
        (fun v => v.credits) = some u.credits) ∧
    (1 ≤ u.credits →
      ((∃ f, dataURLtoFile url ("upscaled-" ++ gimg.id ++ ".jpeg") = Except.ok f) →
        (handleUpscaleImage s gimg (Except.ok url) uploadUrl date).1.currentUser.map
          (fun v => v.credits) = some (u.credits - 1)) ∧
      (handleUpscaleImage s gimg (Except.error msg) uploadUrl date).1.currentUser.map
        (fun v => v.credits) = some u.credits) ∧
    (2 ≤ u.credits → jsTrim gprompt ≠ "" →
      (generatorGenerate s gprompt (Except.ok url) date).1.currentUser.map
        (fun v => v.credits) = some (u.credits - 2) ∧
      (generatorGenerate s gprompt (Except.error msg) date).1.currentUser.map
        (fun v => v.credits) = some (u.credits - 2)) := by
  refine ⟨?_, ?_, ?_⟩
  · intro hcred himg
    have hnc : ¬ u.credits < cost := by omega
    constructor
    · rintro ⟨f, hf⟩
      unfold handleGenericEdit handleDeductCredits addImageToHistory updateUserCredits
      rw [himg, hu]
      dsimp only
      rw [if_neg hnc, hf]
      simp only [Bool.not_true, Bool.false_eq_true, if_false, Option.map_some',
        Option.some.injEq]
      omega
    · unfold handleGenericEdit handleDeductCredits catchEditFailure updateUserCredits
      rw [himg, hu]
      dsimp only
      rw [if_neg hnc]
      simp only [Bool.not_true, Bool.false_eq_true, if_false, Option.map_some',
        Option.some.injEq]
      omega
  · intro hcred
    have hnc : ¬ u.credits < 1 := by omega
    constructor
    · rintro ⟨f, hf⟩
      unfold handleUpscaleImage handleDeductCredits updateGalleryImage updateUserCredits
      rw [hu]
      dsimp only
      rw [if_neg hnc, hf]
      simp only [Bool.not_true, Bool.false_eq_true, if_false, Option.map_some',
        Option.some.injEq]
      omega
    · unfold handleUpscaleImage handleDeductCredits catchUpscaleFailure updateUserCredits
      rw [hu]
      dsimp only
      rw [if_neg hnc]
      simp only [Bool.not_true, Bool.false_eq_true, if_false, Option.map_some',
        Option.some.injEq]
      omega
  · intro hcred hp
    have hnc : ¬ u.credits < 2 := by omega
    constructor
    · unfold generatorGenerate handleDeductCredits updateUserCredits
      rw [if_neg hp, hu]
      dsimp only
      rw [if_neg hnc]
      simp only [Bool.not_true, Bool.false_eq_true, if_false, Option.map_some',
        Option.some.injEq]
      omega
    · unfold generatorGenerate handleDeductCredits updateUserCredits
      rw [if_neg hp, hu]
      dsimp only
      rw [if_neg hnc]
      simp only [Bool.not_true, Bool.false_eq_true, if_false, Option.map_some',
        Option.some.injEq]
      omega

theorem c1_witness :
    (handleGenericEdit (editingState 10) (Except.ok okDataUrl) 2 ("AI Filter") ("filtered") ("2026-02-03")).1.currentUser.map
      (fun v => v.credits) = some 8 ∧
    (handleGenericEdit (editingState 10) (Except.error ("boom")) 2 ("AI Filter") ("filtered") ("2026-02-03")).1.currentUser.map
      (fun v => v.credits) = some 10 ∧
    (handleUpscaleImage (editingState 10) demoGalleryEntry (Except.error ("boom")) ("https://files.example/new.jpeg") ("2026-02-03")).1.currentUser.map
      (fun v => v.credits) = some 10 ∧
    (generatorGenerate (editingState 10) ("a cat") (Except.error ("boom")) ("2026-02-03")).1.currentUser.map
      (fun v => v.credits) = some 8 := by
  have h := c1_ledger_conservation (editingState 10) (demoUser 10) fileB demoGalleryEntry
    2 ("AI Filter") ("filtered") ("2026-02-03") ("a cat") ("https://files.example/new.jpeg")
    okDataUrl ("boom") rfl
  have h1 := (h.1 (by decide) (by decide)).1
    ⟨{ name := "filtered-2026-02-03.png", mime := "image/png", bytes := [65, 66, 67] },
      by decide⟩
  have h2 := (h.1 (by decide) (by decide)).2
  have h3 := (c1_ledger_conservation (editingState 10) (demoUser 10) fileB demoGalleryEntry
    1 ("Upscale") ("upscaled") ("2026-02-03") ("a cat") ("https://files.example/new.jpeg")
    okDataUrl ("boom") rfl).2.1 (by decide) |>.2
  have h4 := (h.2.2 (by decide) (by decide)).2
  exact ⟨h1, h2, h3, h4⟩

/-- C10: a gallery upscale that succeeds returns the stored entry with only
    the url (set to the new download URL) and the upscaled flag (set to
    true) changed — id, prompt and creation timestamp are the stored ones —
    and a failed upscale returns the original entry unchanged in every
    field. -/
theorem c10_upscale_frame
    (s : AppState) (u : User) (gimg : GeneratedImage)
    (upscaledUrl uploadUrl msg date : String)
    (hu : s.currentUser = some u) (hc : 1 ≤ u.credits) :
    ((∃ f, dataURLtoFile upscaledUrl ("upscaled-" ++ gimg.id ++ ".jpeg") = Except.ok f) →
      (handleUpscaleImage s gimg (Except.ok upscaledUrl) uploadUrl date).2
        = some { gimg with url := uploadUrl, isUpscaled := true }) ∧
    (({ gimg with url := uploadUrl, isUpscaled := true } : GeneratedImage).id = gimg.id ∧
     ({ gimg with url := uploadUrl, isUpscaled := true } : GeneratedImage).prompt = gimg.prompt ∧
     ({ gimg with url := uploadUrl, isUpscaled := true } : GeneratedImage).createdAt = gimg.createdAt) ∧
    (handleUpscaleImage s gimg (Except.error msg) uploadUrl date).2 = some gimg := by
  have hnc : ¬ u.credits < 1 := by omega
  refine ⟨?_, ⟨rfl, rfl, rfl⟩, ?_⟩
  · rintro ⟨f, hf⟩
    unfold handleUpscaleImage handleDeductCredits updateGalleryImage
    rw [hu]
    dsimp only
    rw [if_neg hnc, hf]
    simp only [Bool.not_true, Bool.false_eq_true, if_false]
  · unfold handleUpscaleImage handleDeductCredits catchUpscaleFailure
    rw [hu]
    dsimp only
    rw [if_neg hnc]
    simp only [Bool.not_true, Bool.false_eq_true, if_false]

theorem c10_witness :
    (handleUpscaleImage (editingState 10) demoGalleryEntry (Except.ok okDataUrl) ("https://files.example/new.jpeg") ("2026-02-03")).2
      = some { id := "g1", url := "https://files.example/new.jpeg", prompt := "a cat",
               isUpscaled := true, createdAt := "2026-01-01" } ∧
    (handleUpscaleImage (editingState 10) demoGalleryEntry (Except.error ("boom")) ("https://files.example/new.jpeg") ("2026-02-03")).2
      = some demoGalleryEntry := by
  have h := c10_upscale_frame (editingState 10) (demoUser 10) demoGalleryEntry
    okDataUrl ("https://files.example/new.jpeg") ("boom") ("2026-02-03") rfl (by decide)
  exact ⟨h.1 ⟨{ name := "upscaled-g1.jpeg", mime := "image/png", bytes := [65, 66, 67] },
    by decide⟩, h.2.2⟩

theorem findImagePart_inlineData (r : GenerateContentResponse) (part : ResponsePart)
    (h : findImagePart r = some part) : part.inlineData.isSome = true := by
  unfold findImagePart at h
  cases hc : r.candidates.head? with
  | none =>
    rw [hc] at h
    exact Option.noConfusion h
  | some c =>
    rw [hc] at h
    dsimp only at h
    simpa using List.find?_some h

/-- C6: handleApiResponse returns an image payload exactly when the
    response carries no block reason and its first candidate contains an
    inline image part; every non-success outcome is a single
    generation-failure error carrying the operation context; and the
    derived four-way classification marks a response as success exactly
    when handleApiResponse succeeds (each response falls in exactly one
    class since classifyResponse is a total function into the four-way
    sum). -/
theorem c6_gateway_classification (r : GenerateContentResponse) (context : String) :
    ((∃ v, handleApiResponse r context = Except.ok v)
      ↔ blockReasonOf r = none ∧ (findImagePart r).isSome = true) ∧
    (∀ e, handleApiResponse r context = Except.error e → e.context = context) ∧
    ((∃ m d, classifyResponse r = ResponseClass.success m d)
      ↔ (∃ v, handleApiResponse r context = Except.ok v)) := by
  cases hbr : blockReasonOf r with
  | some br =>
    refine ⟨?_, ?_, ?_⟩
    · unfold handleApiResponse
      rw [hbr]
      apply iff_of_false
      · rintro ⟨v, hv⟩
        exact Except.noConfusion hv
      · rintro ⟨hb, _⟩
        exact Option.noConfusion hb
    · intro e he
      unfold handleApiResponse at he
      rw [hbr] at he
      dsimp only at he
      cases he
      rfl
    · unfold classifyResponse handleApiResponse
      rw [hbr]
      apply iff_of_false
      · rintro ⟨m, d, hmd⟩
        exact ResponseClass.noConfusion hmd
      · rintro ⟨v, hv⟩
        exact Except.noConfusion hv
  | none =>
    cases hfp : findImagePart r with
    | some part =>
      cases hd : part.inlineData with
      | none =>
        have hsome := findImagePart_inlineData r part hfp
        rw [hd] at hsome
        exact absurd hsome (by simp)
      | some dta =>
        refine ⟨?_, ?_, ?_⟩
        · unfold handleApiResponse
          rw [hbr]
          dsimp only
          rw [hfp]
          dsimp only
          rw [hd]
          apply iff_of_true
          · exact ⟨_, rfl⟩
          · exact ⟨rfl, rfl⟩
        · intro e he
          unfold handleApiResponse at he
          rw [hbr] at he
          dsimp only at he
          rw [hfp] at he
          dsimp only at he
          rw [hd] at he
          exact Except.noConfusion he
        · unfold classifyResponse handleApiResponse
          rw [hbr]
          dsimp only
          rw [hfp]
          dsimp only
          rw [hd]
          apply iff_of_true
          · exact ⟨dta.mimeType, dta.data, rfl⟩
          · exact ⟨_, rfl⟩
    | none =>
      have herr : ∃ dtl, handleApiResponse r context
          = Except.error { context := context, detail := dtl } := by
        unfold handleApiResponse
        rw [hbr]
        dsimp only
        rw [hfp]
        dsimp only
        cases hfr : responseFinishReason r with
        | none => exact ⟨_, rfl⟩
        | some fr =>
          dsimp only
          by_cases hstop : fr ≠ "STOP"
          · rw [if_pos hstop]
            exact ⟨_, rfl⟩
          · rw [if_neg hstop]
            exact ⟨_, rfl⟩
      obtain ⟨dtl, hdtl⟩ := herr
      refine ⟨?_, ?_, ?_⟩
      · rw [hdtl]
        apply iff_of_false
        · rintro ⟨v, hv⟩
          exact Except.noConfusion hv
        · rintro ⟨_, hsome⟩
          simp [hfp] at hsome
      · intro e he
        rw [hdtl] at he
        cases he
        rfl
      · apply iff_of_false
        · rintro ⟨m, d, hmd⟩
          unfold classifyResponse at hmd
          rw [hbr] at hmd
          dsimp only at hmd
          rw [hfp] at hmd
          dsimp only at hmd
          revert hmd
          cases hfr : responseFinishReason r with
          | none => exact fun hmd => ResponseClass.noConfusion hmd
          | some fr =>
            dsimp only
            by_cases hstop : fr ≠ "STOP"
            · rw [if_pos hstop]
              exact fun hmd => ResponseClass.noConfusion hmd
            · rw [if_neg hstop]
              exact fun hmd => ResponseClass.noConfusion hmd
        · rintro ⟨v, hv⟩
          rw [hdtl] at hv
          exact Except.noConfusion hv

theorem c6_witness :
    (∃ v, handleApiResponse successResponse ("edit") = Except.ok v) ∧
    (∃ m d, classifyResponse successResponse = ResponseClass.success m d) ∧
    ({ context := "filter",
       detail := "Request was blocked. Reason: SAFETY. " } : GenerationFailed).context
      = "filter" := by
  have hs := c6_gateway_classification successResponse ("edit")
  have hb := c6_gateway_classification blockedResponse ("filter")
  have hok : (∃ v, handleApiResponse successResponse ("edit") = Except.ok v) :=
    hs.1.mpr ⟨by decide, by decide⟩
  have herr : handleApiResponse blockedResponse ("filter")
      = Except.error { context := "filter",
                       detail := "Request was blocked. Reason: SAFETY. " } := by decide
  exact ⟨hok, hs.2.2.mpr hok, hb.2.1 _ herr⟩
